import Mathlib

/-
Verification of the Daily-Journal web API (Flask) against its
natural-language specification.

Shallow embedding conventions:
  * `datetime` values are modelled as natural numbers counting seconds
    (a `timedelta` of 60 minutes is 60 * 60 seconds); the concrete ISO
    timestamps of the demo fixture are encoded as the digit string of
    the ISO form read as a decimal literal, which preserves ordering
    and distinctness.
  * `datetime.utcnow()` is passed in explicitly as a `now` parameter;
    handlers that call it several times within one request are given a
    single `now` for that request.
  * `secrets.token_urlsafe()` is nondeterministic; the fresh token is
    passed in as a parameter.
  * The SQLAlchemy store is a pair of lists (users, entries); queries
    `filter_by(...).first()` become `List.find?`.
  * Fallible routes return explicit result inductives.
-/

namespace DailyJournal

/-- project/models.py: class Entry (table `entries`). -/
structure Entry where
  id : Nat
  entry : String
  user_id : Nat
  created_on : Nat
  last_edited_on : Nat
deriving Repr, DecidableEq

/-- project/models.py: class User (table `users`). -/
structure User where
  id : Nat
  email : String
  password_hashed : String
  auth_token : Option String
  auth_token_expiration : Option Nat
  registered_on : Nat
  email_confirmation_sent_on : Nat
  email_confirmed : Bool
  email_confirmed_on : Option Nat
  user_type : String
deriving Repr, DecidableEq

/-- werkzeug generate_password_hash, modelled symbolically: a one-way
salted hash is opaque to this development, so it is embedded as an
injective tagging of the plaintext. -/
def generate_password_hash (password_plaintext : String) : String :=
  "pbkdf2:" ++ password_plaintext

/-- models.py Entry.__init__: stamps created_on and last_edited_on with
the current time. -/
def Entry.init (id : Nat) (entry : String) (user_id : Nat) (now : Nat) : Entry :=
  { id := id, entry := entry, user_id := user_id,
    created_on := now, last_edited_on := now }

/-- models.py Entry.update: sets the text and refreshes last_edited_on. -/
def Entry.update (e : Entry) (entry : String) (now : Nat) : Entry :=
  { e with entry := entry, last_edited_on := now }

/-- models.py User.__init__. -/
def User.init (id : Nat) (email password_plaintext : String) (user_type : String)
    (now : Nat) : User :=
  { id := id, email := email,
    password_hashed := generate_password_hash password_plaintext,
    auth_token := none, auth_token_expiration := none,
    registered_on := now, email_confirmation_sent_on := now,
    email_confirmed := false, email_confirmed_on := none,
    user_type := user_type }

/-- models.py User.generate_auth_token: stores a fresh token on the user
with expiration = now + timedelta(minutes=60), returns the token. -/
def User.generate_auth_token (u : User) (fresh_token : String) (now : Nat) :
    User × String :=
  ({ u with auth_token := some fresh_token,
            auth_token_expiration := some (now + 60 * 60) },
   fresh_token)

/-- models.py User.verify_auth_token (staticmethod): looks the user up by
token (`User.query.filter_by(auth_token=...).first()`) and returns the
user only when `auth_token_expiration > utcnow()`; returns None
otherwise. -/
def User.verify_auth_token (users : List User) (auth_token : String)
    (now : Nat) : Option User :=
  match users.find? (fun u => u.auth_token == some auth_token) with
  | some user =>
      match user.auth_token_expiration with
      | some exp => if now < exp then some user else none
      | none => none
  | none => none

/-- models.py User.revoke_auth_token: sets the expiration to now, leaving
the token string in place. -/
def User.revoke_auth_token (u : User) (now : Nat) : User :=
  { u with auth_token_expiration := some now }

/-
Signed time-limited tokens.

Modelled from the spec: the itsdangerous URLSafeTimedSerializer used by
users_api/routes.py is an external library whose code is not under src/.
Spec section 4.3 gives its contract: `sign(payload, purpose_salt)`
serializes the payload with an HMAC-style signature keyed by a server
secret and scoped by a purpose salt; `verify(token, purpose_salt,
max_age_seconds)` fails with InvalidSignature if the signature does not
match or the salt differs, fails with Expired if issuance time + max_age
has passed, and otherwise returns the original payload. The MAC is
modelled symbolically (ideal MAC): a token records exactly the data the
signature binds — payload, salt, signing secret and issuance time — and
verification succeeds only on exact match of secret and salt.
-/

/-- Modelled from the spec: a signed time-limited token (itsdangerous,
not under src/). The fields are the data the signature binds. -/
structure SignedToken where
  payload : String
  salt : String
  secret : String
  issued_at : Nat
deriving Repr, DecidableEq

/-- Outcome of URLSafeTimedSerializer.loads. SignatureExpired is a
subclass of BadSignature in itsdangerous, so handlers catching
BadSignature catch both. -/
inductive LoadsResult where
  | ok (payload : String)
  | badSignature
  | expired
deriving Repr, DecidableEq

/-- Modelled from the spec: URLSafeTimedSerializer(secret).dumps(payload,
salt) at the current time. -/
def dumps (secret : String) (payload : String) (salt : String)
    (now : Nat) : SignedToken :=
  { payload := payload, salt := salt, secret := secret, issued_at := now }

/-- Modelled from the spec: URLSafeTimedSerializer(secret).loads(token,
salt, max_age) at the current time: the signature only matches when both
the secret and the purpose salt agree; a matching but stale token is
Expired. -/
def loads (secret : String) (token : SignedToken) (salt : String)
    (max_age : Nat) (now : Nat) : LoadsResult :=
  if token.secret = secret ∧ token.salt = salt then
    if now ≤ token.issued_at + max_age then .ok token.payload
    else .expired
  else .badSignature

/-- users_api/routes.py: the purpose salt used by
generate_confirmation_email / confirm_email. -/
def emailConfirmationSalt : String := "email-confirmation-salt"

/-- users_api/routes.py: the purpose salt used by
generate_password_reset_email / process_password_reset_token. -/
def passwordResetSalt : String := "password-reset-salt"

/-- users_api/routes.py generate_confirmation_email: the token embedded
in the confirmation link, `confirm_serializer.dumps(user_email,
salt='email-confirmation-salt')`. -/
def generate_confirmation_email (secret : String) (user_email : String)
    (now : Nat) : SignedToken :=
  dumps secret user_email emailConfirmationSalt now

/-- users_api/routes.py generate_password_reset_email: the token embedded
in the reset link, `password_reset_serializer.dumps(user_email,
salt='password-reset-salt')`. -/
def generate_password_reset_email (secret : String) (user_email : String)
    (now : Nat) : SignedToken :=
  dumps secret user_email passwordResetSalt now

/-- The persistent store: the users and entries tables. -/
structure DB where
  users : List User
  entries : List Entry
deriving Repr, DecidableEq

/-- Outcome of the register route. -/
inductive RegisterResult where
  | created (user : User)
  | badRequest
deriving Repr, DecidableEq

/-- users_api/routes.py register: builds User(**kwargs) and commits; a
storage IntegrityError (the unique constraint on email) rolls the
session back and aborts with 400. The fresh primary key and the request
time are parameters. -/
def register (db : DB) (email password_plaintext : String) (newId : Nat)
    (now : Nat) : DB × RegisterResult :=
  if db.users.any (fun u => u.email == email) then
    (db, .badRequest)
  else
    let new_user := User.init newId email password_plaintext "User" now
    ({ db with users := db.users ++ [new_user] }, .created new_user)

/-- Outcome of the admin delete-user route. -/
inductive DeleteUserResult where
  | notFound
  | errorAdmin
  | deleted
deriving Repr, DecidableEq

/-- admin/routes.py admin_delete_user: 404 when no user has the id; an
Admin target flashes an error and redirects with nothing deleted;
otherwise every entry with the user's id is deleted, then the user. -/
def admin_delete_user (db : DB) (index : Nat) : DB × DeleteUserResult :=
  match db.users.find? (fun u => u.id == index) with
  | none => (db, .notFound)
  | some user =>
      if user.user_type = "Admin" then
        (db, .errorAdmin)
      else
        ({ users := db.users.filter (fun u => u.id != user.id),
           entries := db.entries.filter (fun e => e.user_id != user.id) },
         .deleted)

/-- Outcome of the confirm_email route (which HTML template is
rendered, or an unhandled exception escaping the handler). -/
inductive ConfirmEmailResult where
  | invalidPage
  | duplicatePage
  | confirmedPage
  | crash
deriving Repr, DecidableEq

/-- users_api/routes.py confirm_email: loads the token with the
email-confirmation salt and max_age=3600, rendering the invalid page on
BadSignature (which covers expiry); then looks the user up by the
decoded email and reads user.email_confirmed WITHOUT a None check — a
missing user makes that attribute read raise an unhandled
AttributeError, modelled as crash. -/
def confirm_email (db : DB) (secret : String) (token : SignedToken)
    (now : Nat) : DB × ConfirmEmailResult :=
  match loads secret token emailConfirmationSalt 3600 now with
  | .badSignature => (db, .invalidPage)
  | .expired => (db, .invalidPage)
  | .ok email =>
      match db.users.find? (fun u => u.email == email) with
      | none => (db, .crash)
      | some user =>
          if user.email_confirmed then
            (db, .duplicatePage)
          else
            let user2 := { user with email_confirmed := true,
                                     email_confirmed_on := some now }
            ({ db with users :=
                 db.users.map (fun u => if u.id == user.id then user2 else u) },
             .confirmedPage)

/-- Outcome of the process_password_reset_token route. -/
inductive PasswordResetResult where
  | invalidPage
  | updatedPage
  | formPage
deriving Repr, DecidableEq

/-- users_api/routes.py process_password_reset_token: loads the token
with the password-reset salt and max_age=3600; on a submitted form it
looks the user up by the decoded email and — unlike confirm_email —
renders the invalid page when the user is None; otherwise sets the new
password. `submitted` is the validated form submission, none for a GET. -/
def process_password_reset_token (db : DB) (secret : String)
    (token : SignedToken) (submitted : Option String) (now : Nat) :
    DB × PasswordResetResult :=
  match loads secret token passwordResetSalt 3600 now with
  | .badSignature => (db, .invalidPage)
  | .expired => (db, .invalidPage)
  | .ok email =>
      match submitted with
      | none => (db, .formPage)
      | some password =>
          match db.users.find? (fun u => u.email == email) with
          | none => (db, .invalidPage)
          | some user =>
              let user2 := { user with
                             password_hashed := generate_password_hash password }
              ({ db with users :=
                   db.users.map (fun u => if u.id == user.id then user2 else u) },
               .updatedPage)

/-
Demo journal routes (project/demo/routes.py). The fixture timestamps
are the digits of the ISO timestamps of the source, read as decimal
literals: this encoding of datetime into Nat preserves ordering and
distinctness.
-/

/-- First fixture entry of demo/routes.py demo_entries. -/
def demo_entry1 : Entry :=
  { id := 1,
    entry := "I went for a great walk at the park today.",
    user_id := 0,
    created_on := 20220701042950307527,
    last_edited_on := 20220701042950307527 }

/-- Second fixture entry of demo/routes.py demo_entries. -/
def demo_entry2 : Entry :=
  { id := 2,
    entry := "I tried a new pasta recipe for dinner tonight.",
    user_id := 0,
    created_on := 20220702062950307527,
    last_edited_on := 20220702062950307527 }

/-- Third fixture entry of demo/routes.py demo_entries. -/
def demo_entry3 : Entry :=
  { id := 3,
    entry := "There was a great new movie on Netflix that I watched tonight.",
    user_id := 0,
    created_on := 20220702072950307527,
    last_edited_on := 20220702072950307527 }

/-- Fourth fixture entry of demo/routes.py demo_entries. -/
def demo_entry4 : Entry :=
  { id := 4,
    entry := "There was so much fresh fruit at the grocery store, so I made a great fruit salad with dinner.",
    user_id := 0,
    created_on := 20220702142950307527,
    last_edited_on := 20220702142950307527 }

/-- Fifth fixture entry of demo/routes.py demo_entries. -/
def demo_entry5 : Entry :=
  { id := 5,
    entry := "I got an email from an old friend today that was a really nice surprise.",
    user_id := 0,
    created_on := 20220703172950307527,
    last_edited_on := 20220703172950307527 }

/-- demo/routes.py: the in-memory demonstration fixture demo_entries. -/
def demo_entries : List Entry :=
  [demo_entry1, demo_entry2, demo_entry3, demo_entry4, demo_entry5]

/-- demo/routes.py demo_add_journal_entry: builds the response dict with
id = len(demo_entries) + 1 and created_on = last_edited_on = utcnow(),
and returns it; the fixture list itself is never appended to, so the
first component (the fixture after the request) is the input unchanged. -/
def demo_add_journal_entry (entries : List Entry) (entry : String)
    (now : Nat) : List Entry × Entry :=
  let new_message : Entry :=
    { id := entries.length + 1, entry := entry, user_id := 0,
      created_on := now, last_edited_on := now }
  (entries, new_message)

/-- demo/routes.py demo_get_journal_entry: aborts 404 when index == 0 or
index > len(demo_entries), else returns demo_entries[index - 1]. -/
def demo_get_journal_entry (entries : List Entry) (index : Nat) :
    Option Entry :=
  if index = 0 ∨ index > entries.length then none
  else entries[index - 1]?

/-- Outcome of the demo update route. -/
inductive DemoUpdateResult where
  | ok (e : Entry)
  | notFound
deriving Repr, DecidableEq

/-- demo/routes.py demo_update_journal_entry: aborts 404 when index == 0
or index > len(demo_entries); otherwise mutates the fixture entry in
place, setting only its text field (neither timestamp is touched), and
returns it. -/
def demo_update_journal_entry (entries : List Entry) (index : Nat)
    (entry : String) : List Entry × DemoUpdateResult :=
  if index = 0 ∨ index > entries.length then (entries, .notFound)
  else
    match entries[index - 1]? with
    | some e =>
        let updated := { e with entry := entry }
        (entries.set (index - 1) updated, .ok updated)
    | none => (entries, .notFound)

/-- Outcome of the demo delete route. -/
inductive DemoDeleteResult where
  | noContent
  | notFound
deriving Repr, DecidableEq

/-- demo/routes.py demo_delete_journal_entry: aborts 404 when index == 0
or index > len(demo_entries); otherwise returns the empty 204 response —
the body never removes anything from the fixture, so the first component
(the fixture after the request) is the input unchanged. -/
def demo_delete_journal_entry (entries : List Entry) (index : Nat) :
    List Entry × DemoDeleteResult :=
  if index = 0 ∨ index > entries.length then (entries, .notFound)
  else (entries, .noContent)

/-
Concrete fixtures used by witnesses and counterexamples.
-/

/-- A sample registered user. -/
def sampleUser : User := User.init 1 "a@example.com" "CorrectHorse1" "User" 0

/-- A sample admin user. -/
def sampleAdmin : User := User.init 1 "admin@example.com" "AdminPw9" "Admin" 0

/-- A sample non-admin user with id 2, owning entries in sampleDB. -/
def sampleBob : User := User.init 2 "bob@example.com" "BobPw7" "User" 0

/-- A store holding an admin, a regular user and three entries, two of
them owned by the regular user. -/
def sampleDB : DB :=
  { users := [sampleAdmin, sampleBob],
    entries := [Entry.init 1 "walked the dog" 2 10,
                Entry.init 2 "made pasta" 2 20,
                Entry.init 3 "admin note" 1 30] }

/-
Theorems.
-/

/-- C1: generate_auth_token stores the token on the user with expiration
= issuance time + 60 minutes, and verify_auth_token on that token
returns the user at every time strictly before the expiration and none
at every time at or after it. -/
theorem generate_auth_token_window (u : User) (tok : String)
    (tIssue tVerify : Nat) :
    ((User.generate_auth_token u tok tIssue).1.auth_token = some tok ∧
     (User.generate_auth_token u tok tIssue).1.auth_token_expiration
       = some (tIssue + 60 * 60)) ∧
    (tVerify < tIssue + 60 * 60 →
       User.verify_auth_token [(User.generate_auth_token u tok tIssue).1]
           tok tVerify
         = some (User.generate_auth_token u tok tIssue).1) ∧
    (tIssue + 60 * 60 ≤ tVerify →
       User.verify_auth_token [(User.generate_auth_token u tok tIssue).1]
           tok tVerify
         = none) := by
  refine ⟨⟨rfl, rfl⟩, ?_, ?_⟩ <;> intro h <;>
    simp [User.verify_auth_token, User.generate_auth_token, List.find?] <;>
    omega

/-- Witness for C1: a concrete issuance at time 0; verification succeeds
at 59 minutes and fails at 61 minutes. -/
theorem generate_auth_token_window_witness :
    User.verify_auth_token [(User.generate_auth_token sampleUser "tok" 0).1]
        "tok" (59 * 60)
      = some (User.generate_auth_token sampleUser "tok" 0).1 ∧
    User.verify_auth_token [(User.generate_auth_token sampleUser "tok" 0).1]
        "tok" (61 * 60)
      = none :=
  ⟨(generate_auth_token_window sampleUser "tok" 0 (59 * 60)).2.1 (by decide),
   (generate_auth_token_window sampleUser "tok" 0 (61 * 60)).2.2 (by decide)⟩

/-- C2: for a user holding a currently valid token, revoke_auth_token
sets the expiration to the revocation time, leaves the token string
unchanged, and every verify_auth_token at or after the revocation time
returns none. -/
theorem revoke_auth_token_invalidates (u : User) (tok : String)
    (exp tRev tVerify : Nat)
    (htok : u.auth_token = some tok)
    (hexp : u.auth_token_expiration = some exp)
    (hvalid : tRev < exp)
    (hafter : tRev ≤ tVerify) :
    (User.revoke_auth_token u tRev).auth_token = u.auth_token ∧
    (User.revoke_auth_token u tRev).auth_token_expiration = some tRev ∧
    User.verify_auth_token [User.revoke_auth_token u tRev] tok tVerify
      = none := by
  refine ⟨rfl, rfl, ?_⟩
  simp [User.verify_auth_token, User.revoke_auth_token, List.find?, htok]
  omega

/-- Witness for C2: issue at time 0 (expiration 3600), revoke at time
10; verification at time 10 fails although the token string is intact. -/
theorem revoke_auth_token_invalidates_witness :
    (User.revoke_auth_token (User.generate_auth_token sampleUser "tok" 0).1
        10).auth_token
      = (User.generate_auth_token sampleUser "tok" 0).1.auth_token ∧
    (User.revoke_auth_token (User.generate_auth_token sampleUser "tok" 0).1
        10).auth_token_expiration
      = some 10 ∧
    User.verify_auth_token
        [User.revoke_auth_token (User.generate_auth_token sampleUser "tok" 0).1
           10]
        "tok" 10
      = none :=
  revoke_auth_token_invalidates
    (User.generate_auth_token sampleUser "tok" 0).1 "tok" (0 + 60 * 60) 10 10
    rfl rfl (by decide) (by decide)

/-- C6: Entry.update sets the text and refreshes last_edited_on while
leaving created_on, id and user_id unmodified. -/
theorem Entry_update_frame (e : Entry) (text : String) (now : Nat) :
    (e.update text now).entry = text ∧
    (e.update text now).last_edited_on = now ∧
    (e.update text now).created_on = e.created_on ∧
    (e.update text now).id = e.id ∧
    (e.update text now).user_id = e.user_id :=
  ⟨rfl, rfl, rfl, rfl, rfl⟩

/-- C3: a token signed with the email-confirmation salt is rejected as a
bad signature by the password-reset loads call even with identical
payload, secret and max age, while a token signed with the
password-reset salt within max age is accepted there with the original
payload. -/
theorem salt_isolation (secret email : String) (tSign tVerify : Nat) :
    loads secret (generate_confirmation_email secret email tSign)
        passwordResetSalt 3600 tVerify
      = .badSignature ∧
    (tVerify ≤ tSign + 3600 →
       loads secret (generate_password_reset_email secret email tSign)
           passwordResetSalt 3600 tVerify
         = .ok email) := by
  constructor
  · simp [loads, generate_confirmation_email, dumps,
          emailConfirmationSalt, passwordResetSalt]
  · intro h
    simp [loads, generate_password_reset_email, dumps, passwordResetSalt, h]

/-- Witness for C3: a concrete confirmation token for a\x40example.com is
rejected by the password-reset verifier at the issuance instant, while
the reset token signed at the same instant is accepted. -/
theorem salt_isolation_witness :
    loads "secret" (generate_confirmation_email "secret" "a@example.com" 0)
        passwordResetSalt 3600 0
      = .badSignature ∧
    loads "secret" (generate_password_reset_email "secret" "a@example.com" 0)
        passwordResetSalt 3600 0
      = .ok "a@example.com" :=
  ⟨(salt_isolation "secret" "a@example.com" 0 0).1,
   (salt_isolation "secret" "a@example.com" 0 0).2 (by decide)⟩

/-- C4: registering with an email some existing user already has returns
400 and leaves the store unchanged: no duplicate row, the transaction
rolled back. -/
theorem register_conflict (db : DB) (email password_plaintext : String)
    (newId : Nat) (now : Nat)
    (h : ∃ u ∈ db.users, u.email = email) :
    register db email password_plaintext newId now
      = (db, RegisterResult.badRequest) := by
  have hany : db.users.any (fun u => u.email == email) = true := by
    rw [List.any_eq_true]
    obtain ⟨u, hu, he⟩ := h
    exact ⟨u, hu, by simp [he]⟩
  simp [register, hany]

/-- Witness for C4: registering a\x40example.com twice; the second attempt
returns 400 and the store is exactly the one-user store it was. -/
theorem register_conflict_witness :
    register { users := [sampleUser], entries := [] } "a@example.com"
        "OtherPw5" 2 99
      = ({ users := [sampleUser], entries := [] },
         RegisterResult.badRequest) :=
  register_conflict { users := [sampleUser], entries := [] } "a@example.com"
    "OtherPw5" 2 99 ⟨sampleUser, by simp, rfl⟩

/-- C5: for a user id present in the store, admin_delete_user on an
Admin target reports the error and changes nothing; on a non-Admin
target it deletes the user and every entry whose user_id references the
target, so no orphan entry persists. -/
theorem admin_delete_user_spec (db : DB) (index : Nat) (user : User)
    (hfind : db.users.find? (fun u => u.id == index) = some user) :
    (user.user_type = "Admin" →
       admin_delete_user db index = (db, DeleteUserResult.errorAdmin)) ∧
    (user.user_type ≠ "Admin" →
       (admin_delete_user db index).2 = DeleteUserResult.deleted ∧
       (admin_delete_user db index).1.entries.all
           (fun e => e.user_id != user.id)
         = true ∧
       (admin_delete_user db index).1.users.all (fun v => v.id != user.id)
         = true) := by
  constructor
  · intro hAdmin
    simp [admin_delete_user, hfind, hAdmin]
  · intro hNotAdmin
    refine ⟨?_, ?_, ?_⟩ <;>
      simp [admin_delete_user, hfind, hNotAdmin, List.all_eq_true]

/-- Witness for C5: in the sample store, deleting user id 1 (the admin)
changes nothing and reports the error; deleting user id 2 removes the
user and both entries owned by id 2. -/
theorem admin_delete_user_spec_witness :
    admin_delete_user sampleDB 1 = (sampleDB, DeleteUserResult.errorAdmin) ∧
    ((admin_delete_user sampleDB 2).2 = DeleteUserResult.deleted ∧
     (admin_delete_user sampleDB 2).1.entries.all (fun e => e.user_id != 2)
       = true ∧
     (admin_delete_user sampleDB 2).1.users.all (fun v => v.id != 2)
       = true) :=
  ⟨(admin_delete_user_spec sampleDB 1 sampleAdmin (by decide)).1 (by decide),
   (admin_delete_user_spec sampleDB 2 sampleBob (by decide)).2 (by decide)⟩

/-- C10: for a token with a valid in-date signature whose encoded email
matches no user, confirm_email dereferences the absent user and raises
an unhandled error (crash); on the very same missing email the
password-reset handler instead renders its invalid page. -/
theorem confirm_email_missing_user_crash (db : DB)
    (secret email password : String) (tSign tNow : Nat)
    (hage : tNow ≤ tSign + 3600)
    (hnone : db.users.find? (fun u => u.email == email) = none) :
    confirm_email db secret (generate_confirmation_email secret email tSign)
        tNow
      = (db, ConfirmEmailResult.crash) ∧
    process_password_reset_token db secret
        (generate_password_reset_email secret email tSign) (some password)
        tNow
      = (db, PasswordResetResult.invalidPage) := by
  constructor
  · simp [confirm_email, loads, generate_confirmation_email, dumps,
          emailConfirmationSalt, hage, hnone]
  · simp [process_password_reset_token, loads,
          generate_password_reset_email, dumps, passwordResetSalt, hage,
          hnone]

/-- Witness for C10: a fresh, correctly signed confirmation token for
ghost\x40example.com, an address of no user in the sample store, crashes
confirm_email while the reset handler renders the invalid page. -/
theorem confirm_email_missing_user_crash_witness :
    confirm_email { users := [sampleUser], entries := [] } "secret"
        (generate_confirmation_email "secret" "ghost@example.com" 0) 0
      = ({ users := [sampleUser], entries := [] }, ConfirmEmailResult.crash) ∧
    process_password_reset_token { users := [sampleUser], entries := [] }
        "secret" (generate_password_reset_email "secret" "ghost@example.com" 0)
        (some "NewPw123") 0
      = ({ users := [sampleUser], entries := [] },
         PasswordResetResult.invalidPage) :=
  confirm_email_missing_user_crash { users := [sampleUser], entries := [] }
    "secret" "ghost@example.com" "NewPw123" 0 0 (by decide) (by decide)

/-- Counterexample for C7 as stated: deleting index 1 answers 204 yet a
subsequent get of index 1 still returns the first fixture entry instead
of failing with 404 — the handler never removes anything. -/
theorem demo_delete_counterexample :
    (demo_delete_journal_entry demo_entries 1).2 = DemoDeleteResult.noContent ∧
    demo_get_journal_entry (demo_delete_journal_entry demo_entries 1).1 1
      = some demo_entry1 := by
  decide

/-- C7 amended: delete with an index between 1 and the number of fixture
entries answers 204 but leaves the fixture unchanged, so a subsequent
get of the same index still succeeds; delete with index 0 or an index
greater than the number of entries fails with 404. -/
theorem demo_delete_journal_entry_spec (entries : List Entry) (index : Nat) :
    (1 ≤ index → index ≤ entries.length →
       demo_delete_journal_entry entries index
           = (entries, DemoDeleteResult.noContent) ∧
       (demo_get_journal_entry entries index).isSome = true) ∧
    (index = 0 ∨ index > entries.length →
       demo_delete_journal_entry entries index
         = (entries, DemoDeleteResult.notFound)) := by
  constructor
  · intro h1 h2
    have hcond : ¬ (index = 0 ∨ index > entries.length) := by omega
    have hlt : index - 1 < entries.length := by omega
    refine ⟨by simp [demo_delete_journal_entry, hcond], ?_⟩
    simp [demo_get_journal_entry, hcond, List.getElem?_eq_getElem hlt]
  · intro hcond
    simp [demo_delete_journal_entry, hcond]

/-- Witness for C7 amended: deleting index 1 answers 204 with the
fixture intact and get still succeeding; deleting index 0 answers 404. -/
theorem demo_delete_journal_entry_spec_witness :
    (demo_delete_journal_entry demo_entries 1
         = (demo_entries, DemoDeleteResult.noContent) ∧
     (demo_get_journal_entry demo_entries 1).isSome = true) ∧
    demo_delete_journal_entry demo_entries 0
      = (demo_entries, DemoDeleteResult.notFound) :=
  ⟨(demo_delete_journal_entry_spec demo_entries 1).1 (by decide) (by decide),
   (demo_delete_journal_entry_spec demo_entries 0).2 (Or.inl rfl)⟩

/-- Counterexample for C8 as stated: creating an entry assigns id 6 and
equal timestamps, but the fixture is left unchanged and a subsequent get
of the assigned id fails with 404 instead of returning the created
entry. -/
theorem demo_add_counterexample :
    (demo_add_journal_entry demo_entries "Had coffee" 99).2.id = 6 ∧
    (demo_add_journal_entry demo_entries "Had coffee" 99).1 = demo_entries ∧
    demo_get_journal_entry (demo_add_journal_entry demo_entries "Had coffee" 99).1
        6
      = none := by
  decide

/-- C8 amended: create returns an entry whose id is the fixture length
plus one, with created_on equal to last_edited_on and the given text,
but never persists it: the fixture is unchanged and a subsequent get of
the assigned id fails with 404. -/
theorem demo_add_journal_entry_spec (entries : List Entry) (text : String)
    (now : Nat) :
    (demo_add_journal_entry entries text now).1 = entries ∧
    (demo_add_journal_entry entries text now).2.id = entries.length + 1 ∧
    (demo_add_journal_entry entries text now).2.entry = text ∧
    (demo_add_journal_entry entries text now).2.created_on
      = (demo_add_journal_entry entries text now).2.last_edited_on ∧
    demo_get_journal_entry (demo_add_journal_entry entries text now).1
        (demo_add_journal_entry entries text now).2.id
      = none := by
  refine ⟨rfl, rfl, rfl, rfl, ?_⟩
  simp [demo_add_journal_entry, demo_get_journal_entry]

/-- Counterexample for C9 as stated: updating index 1 sets the text but
leaves last_edited_on exactly at the original creation timestamp — the
handler never refreshes it (it does not even read the clock). -/
theorem demo_update_counterexample :
    (demo_update_journal_entry demo_entries 1 "Had tea").2
      = DemoUpdateResult.ok { demo_entry1 with entry := "Had tea" } ∧
    ({ demo_entry1 with entry := "Had tea" } : Entry).last_edited_on
      = demo_entry1.created_on := by
  decide

/-- C9 amended: update with an index between 1 and the number of fixture
entries sets that entry's text in place, modifying neither created_on
nor last_edited_on; update with index 0 or an index greater than the
number of entries fails with 404. -/
theorem demo_update_journal_entry_spec (entries : List Entry) (index : Nat)
    (text : String) :
    (index = 0 ∨ index > entries.length →
       demo_update_journal_entry entries index text
         = (entries, DemoUpdateResult.notFound)) ∧
    (∀ e, entries[index - 1]? = some e → 1 ≤ index →
       index ≤ entries.length →
       demo_update_journal_entry entries index text
         = (entries.set (index - 1) { e with entry := text },
            DemoUpdateResult.ok { e with entry := text })) := by
  constructor
  · intro hcond
    simp [demo_update_journal_entry, hcond]
  · intro e he h1 h2
    have hcond : ¬ (index = 0 ∨ index > entries.length) := by omega
    simp [demo_update_journal_entry, hcond, he]

/-- Witness for C9 amended: updating index 0 answers 404; updating index
1 to "Had tea" stores the first entry with only its text changed. -/
theorem demo_update_journal_entry_spec_witness :
    demo_update_journal_entry demo_entries 0 "Had tea"
      = (demo_entries, DemoUpdateResult.notFound) ∧
    demo_update_journal_entry demo_entries 1 "Had tea"
      = (demo_entries.set 0 { demo_entry1 with entry := "Had tea" },
         DemoUpdateResult.ok { demo_entry1 with entry := "Had tea" }) :=
  ⟨(demo_update_journal_entry_spec demo_entries 0 "Had tea").1 (Or.inl rfl),
   (demo_update_journal_entry_spec demo_entries 1 "Had tea").2 demo_entry1
     rfl (by decide) (by decide)⟩

end DailyJournal
